import Mathlib

/-!
Verification model of the PSPSchool-StudentMS repository.

Embedded components:
* entity model (`include/models.hpp`): `Student`, `Course`, `Grade` with the
  derived weighted score;
* in-memory mirror (`include/services.hpp`, `helpers.cpp`): `DataStore` with
  its add / enroll / enter-marks / update / remove / report helpers;
* durable store (`db.cpp`): the SQLite tables are modelled as lists of rows,
  and each `db_*` write is modelled by the constraint semantics of its SQL
  statement (primary-key uniqueness, foreign keys, `ON DELETE CASCADE`,
  `sqlite3_changes` for updates/deletes); I/O failure is outside the model;
* synchronization protocol (`PSPSchool-StudentMS.cpp`, `main`): every mutating
  menu action is the C++ expression `db_op(...) && mirror_op(...)`, modelled by
  `runAction`.

C++ `double` marks are modelled as `ℚ`; `std::string` as `String`.
-/

/-- A student record (`models.hpp`). -/
structure Student where
  roll_no : String
  name : String
  address : String
  contact : String
  deriving DecidableEq

/-- A course record (`models.hpp`). -/
structure Course where
  code : String
  title : String
  description : String
  teacher : String
  deriving DecidableEq

/-- One grade record linking a student and a course (`models.hpp`). -/
structure Grade where
  roll_no : String
  course_code : String
  internal_mark : ℚ := 0
  final_mark : ℚ := 0
  deriving DecidableEq

/-- Weighted grade: 30% internal, 70% final (`models.hpp`, `Grade::weighted`). -/
def Grade.weighted (g : Grade) : ℚ :=
  3/10 * g.internal_mark + 7/10 * g.final_mark

/-- The in-memory cache mirroring the database (`services.hpp`, `DataStore`). -/
structure DataStore where
  all_students : List Student
  all_courses : List Course
  all_grades : List Grade
  deriving DecidableEq

/-- Model of `helpers.cpp`, `exists_student`: membership of a roll in the cache. -/
def exists_student (d : DataStore) (roll : String) : Bool :=
  d.all_students.any (fun s => s.roll_no == roll)

/-- Model of `helpers.cpp`, `exists_course`: membership of a course code in the cache. -/
def exists_course (d : DataStore) (code : String) : Bool :=
  d.all_courses.any (fun c => c.code == code)

/-- Model of `helpers.cpp`, `already_enrolled`: whether the (roll, code) pair has a
grade row. -/
def already_enrolled (d : DataStore) (roll code : String) : Bool :=
  d.all_grades.any (fun g => g.roll_no == roll && g.course_code == code)

/-- Model of `services.hpp`, `add_student`: insert if `roll_no` is not taken
(the C++ mutates `data` in place and returns a `bool`; the model returns
the pair). -/
def add_student (d : DataStore) (s : Student) : Bool × DataStore :=
  if d.all_students.any (fun x => x.roll_no == s.roll_no) then (false, d)
  else (true, { d with all_students := d.all_students ++ [s] })

/-- Model of `services.hpp`, `add_course`: insert if `code` is not taken. -/
def add_course (d : DataStore) (c : Course) : Bool × DataStore :=
  if d.all_courses.any (fun x => x.code == c.code) then (false, d)
  else (true, { d with all_courses := d.all_courses ++ [c] })

/-- Model of `services.hpp`, `enroll_student`: checks the student exists, the course
exists, and the pair is not yet enrolled (three early `return false`s), then
appends a zero-mark grade row. -/
def enroll_student (d : DataStore) (roll code : String) : Bool × DataStore :=
  if !(d.all_students.any (fun x => x.roll_no == roll)) then (false, d)
  else if !(d.all_courses.any (fun x => x.code == code)) then (false, d)
  else if d.all_grades.any (fun g => g.roll_no == roll && g.course_code == code) then (false, d)
  else (true, { d with all_grades := d.all_grades ++ [⟨roll, code, 0, 0⟩] })

/-- Model of `std::find_if` followed by an in-place write: overwrite the marks of the
first grade row matching the composite key, or `none` if no row matches. -/
def update_first_grade : List Grade → String → String → ℚ → ℚ → Option (List Grade)
  | [], _, _, _, _ => none
  | g :: gs, roll, code, im, fm =>
    if g.roll_no == roll && g.course_code == code then
      some ({ g with internal_mark := im, final_mark := fm } :: gs)
    else
      match update_first_grade gs roll code im fm with
      | some gs' => some (g :: gs')
      | none => none

/-- Model of `services.hpp`, `enter_marks`: rejects marks outside [0, 100] up front,
then overwrites the first matching grade row, failing if absent. -/
def enter_marks (d : DataStore) (roll code : String) (im fm : ℚ) : Bool × DataStore :=
  if im < 0 ∨ 100 < im ∨ fm < 0 ∨ 100 < fm then (false, d)
  else
    match update_first_grade d.all_grades roll code im fm with
    | some gs => (true, { d with all_grades := gs })
    | none => (false, d)

/-- Replace the first student whose `roll_no` matches (`helpers.cpp`,
`apply_student_update` loop body `it = s; return true`). -/
def replace_first_student : List Student → Student → Option (List Student)
  | [], _ => none
  | x :: xs, s =>
    if x.roll_no == s.roll_no then some (s :: xs)
    else
      match replace_first_student xs s with
      | some xs' => some (x :: xs')
      | none => none

/-- Model of `helpers.cpp`, `apply_student_update`. -/
def apply_student_update (d : DataStore) (s : Student) : Bool × DataStore :=
  match replace_first_student d.all_students s with
  | some xs => (true, { d with all_students := xs })
  | none => (false, d)

/-- Replace the first course whose `code` matches (`helpers.cpp`,
`apply_course_update` loop body). -/
def replace_first_course : List Course → Course → Option (List Course)
  | [], _ => none
  | x :: xs, c =>
    if x.code == c.code then some (c :: xs)
    else
      match replace_first_course xs c with
      | some xs' => some (x :: xs')
      | none => none

/-- Model of `helpers.cpp`, `apply_course_update`. -/
def apply_course_update (d : DataStore) (c : Course) : Bool × DataStore :=
  match replace_first_course d.all_courses c with
  | some xs => (true, { d with all_courses := xs })
  | none => (false, d)

/-- Model of `helpers.cpp`, `remove_student`: erase-remove every student with the roll
and every grade row with that roll; the return value compares the student
vector's size before and after. -/
def remove_student (d : DataStore) (roll : String) : Bool × DataStore :=
  let students' := d.all_students.filter (fun s => !(s.roll_no == roll))
  let grades' := d.all_grades.filter (fun g => !(g.roll_no == roll))
  (students'.length != d.all_students.length,
   { d with all_students := students', all_grades := grades' })

/-- Model of `helpers.cpp`, `remove_course`: erase-remove every course with the code
and every grade row with that code. -/
def remove_course (d : DataStore) (code : String) : Bool × DataStore :=
  let courses' := d.all_courses.filter (fun c => !(c.code == code))
  let grades' := d.all_grades.filter (fun g => !(g.course_code == code))
  (courses'.length != d.all_courses.length,
   { d with all_courses := courses', all_grades := grades' })

/-- Model of `helpers.cpp`, `remove_enrollment`: erase-remove the grade rows matching
the composite key. -/
def remove_enrollment (d : DataStore) (roll code : String) : Bool × DataStore :=
  let grades' := d.all_grades.filter (fun g => !(g.roll_no == roll && g.course_code == code))
  (grades'.length != d.all_grades.length, { d with all_grades := grades' })

/-- Model of `services.hpp`, `student_report`, aggregate loop: one pass over
`all_grades` accumulating (total weighted, count, count with weighted ≥ 50). -/
def report_agg (d : DataStore) (roll : String) : ℚ × Nat × Nat :=
  d.all_grades.foldl
    (fun acc g =>
      if g.roll_no == roll then
        (acc.1 + g.weighted, acc.2.1 + 1, acc.2.2 + (if (50 : ℚ) ≤ g.weighted then 1 else 0))
      else acc)
    ((0 : ℚ), (0 : Nat), (0 : Nat))

/-- Model of `services.hpp`, `student_report`: prints nothing in the model; returns
`none` when the student is absent ("Student not found"), otherwise the
aggregate triple (total weighted, courses count, passed count); the printed
average is total / count when the count is positive. Reads only. -/
def student_report (d : DataStore) (roll : String) : Option (ℚ × Nat × Nat) :=
  if d.all_students.any (fun s => s.roll_no == roll) then some (report_agg d roll)
  else none

/-- The durable SQLite store (`db.cpp`): the three tables as row lists. -/
structure Db where
  students : List Student
  courses : List Course
  grades : List Grade
  deriving DecidableEq

/-- Model of `db.cpp`, `db_add_student`: `INSERT INTO students` fails exactly on a
`roll_no` primary-key collision, leaving the table unchanged. -/
def db_add_student (db : Db) (s : Student) : Bool × Db :=
  if db.students.any (fun x => x.roll_no == s.roll_no) then (false, db)
  else (true, { db with students := db.students ++ [s] })

/-- Model of `db.cpp`, `db_add_course`: `INSERT INTO courses` fails exactly on a
`code` primary-key collision. -/
def db_add_course (db : Db) (c : Course) : Bool × Db :=
  if db.courses.any (fun x => x.code == c.code) then (false, db)
  else (true, { db with courses := db.courses ++ [c] })

/-- Model of `db.cpp`, `db_enroll`: `INSERT INTO grades VALUES(?,?,0,0)` fails on a
composite primary-key collision or on either missing foreign key. -/
def db_enroll (db : Db) (roll code : String) : Bool × Db :=
  if db.grades.any (fun g => g.roll_no == roll && g.course_code == code) then (false, db)
  else if !(db.students.any (fun s => s.roll_no == roll)) then (false, db)
  else if !(db.courses.any (fun c => c.code == code)) then (false, db)
  else (true, { db with grades := db.grades ++ [⟨roll, code, 0, 0⟩] })

/-- Model of `db.cpp`, `db_enter_marks`: `UPDATE grades SET ... WHERE roll_no=? AND
course_code=?` rewrites every matching row (no range check in the store);
success requires `sqlite3_changes(db) > 0`, i.e. some row matched. -/
def db_enter_marks (db : Db) (roll code : String) (im fm : ℚ) : Bool × Db :=
  (db.grades.any (fun g => g.roll_no == roll && g.course_code == code),
   { db with grades := db.grades.map (fun g =>
       if g.roll_no == roll && g.course_code == code then
         { g with internal_mark := im, final_mark := fm }
       else g) })

/-- Model of `db.cpp`, `db_update_student`: `UPDATE students SET name, address,
contact WHERE roll_no=?`; success requires a matched row. -/
def db_update_student (db : Db) (s : Student) : Bool × Db :=
  (db.students.any (fun x => x.roll_no == s.roll_no),
   { db with students := db.students.map (fun x =>
       if x.roll_no == s.roll_no then
         { x with name := s.name, address := s.address, contact := s.contact }
       else x) })

/-- Model of `db.cpp`, `db_update_course`: `UPDATE courses SET title, description,
teacher WHERE code=?`. -/
def db_update_course (db : Db) (c : Course) : Bool × Db :=
  (db.courses.any (fun x => x.code == c.code),
   { db with courses := db.courses.map (fun x =>
       if x.code == c.code then
         { x with title := c.title, description := c.description, teacher := c.teacher }
       else x) })

/-- Model of `db.cpp`, `db_delete_student`: `DELETE FROM students WHERE roll_no=?`;
the `ON DELETE CASCADE` constraint on `grades.roll_no` removes that
student's grade rows; success requires a matched student row. -/
def db_delete_student (db : Db) (roll : String) : Bool × Db :=
  (db.students.any (fun s => s.roll_no == roll),
   { db with students := db.students.filter (fun s => !(s.roll_no == roll)),
             grades := db.grades.filter (fun g => !(g.roll_no == roll)) })

/-- Model of `db.cpp`, `db_delete_course`: `DELETE FROM courses WHERE code=?` with
cascade on `grades.course_code`. -/
def db_delete_course (db : Db) (code : String) : Bool × Db :=
  (db.courses.any (fun c => c.code == code),
   { db with courses := db.courses.filter (fun c => !(c.code == code)),
             grades := db.grades.filter (fun g => !(g.course_code == code)) })

/-- Model of `db.cpp`, `db_delete_enrollment`: `DELETE FROM grades WHERE roll_no=? AND
course_code=?`; success requires a matched row. -/
def db_delete_enrollment (db : Db) (roll code : String) : Bool × Db :=
  let grades' := db.grades.filter (fun g => !(g.roll_no == roll && g.course_code == code))
  (grades'.length != db.grades.length, { db with grades := grades' })

/-- Seed rows from `db.cpp`, `db_init_and_seed`, `seed_students`. -/
def seedStudents : List Student :=
  [⟨"S001", "Ava", "12 Oak St", "021-111"⟩,
   ⟨"S002", "Leo", "34 Pine Ave", "021-222"⟩,
   ⟨"S003", "Mia", "56 Willow Rd", "021-333"⟩]

/-- Seed rows from `db.cpp`, `db_init_and_seed`, `seed_courses`. -/
def seedCourses : List Course :=
  [⟨"MTH101", "Maths", "Numbers and algebra", "Mr. King"⟩,
   ⟨"SCI101", "Science", "Intro science", "Ms. Ray"⟩,
   ⟨"ENG101", "English", "Reading & writing", "Mrs. Lee"⟩]

/-- Seed rows from `db.cpp`, `db_init_and_seed`, `seed_grades`. -/
def seedGrades : List Grade :=
  [⟨"S001", "MTH101", 75, 88⟩,
   ⟨"S001", "SCI101", 62, 70⟩,
   ⟨"S002", "ENG101", 80, 92⟩,
   ⟨"S003", "MTH101", 55, 60⟩]

/-- The foreign-key admissibility of the grades seed statement: with
`PRAGMA foreign_keys = ON`, the multi-row `INSERT INTO grades` of
`db_init_and_seed` succeeds only if every seed row's `roll_no` and
`course_code` reference existing rows of the given students and courses
tables; a single violating row fails the whole statement. -/
def seed_grades_fk_ok (students : List Student) (courses : List Course) : Bool :=
  seedGrades.all (fun g =>
    students.any (fun s => s.roll_no == g.roll_no) &&
    courses.any (fun c => c.code == g.course_code))

/-- Model of `db.cpp`, `db_init_and_seed`: the `CREATE TABLE IF NOT EXISTS`
statements are no-ops on the row model; each table is then seeded exactly
when `table_empty` finds it empty, the checks made in sequence (students,
then courses, then grades). The students and courses seed inserts cannot
violate a constraint into an empty table, but the grades seed is subject
to the `FOREIGN KEY` constraints: if a referenced seed student or course
is absent at that point, `exec_sql` fails and the function returns false
immediately, the earlier per-statement autocommitted seeds kept and the
grades table left unseeded. I/O failure is outside the model. -/
def db_init_and_seed (db : Db) : Bool × Db :=
  let db1 := if db.students.isEmpty then { db with students := db.students ++ seedStudents } else db
  let db2 := if db1.courses.isEmpty then { db1 with courses := db1.courses ++ seedCourses } else db1
  if db2.grades.isEmpty then
    if seed_grades_fk_ok db2.students db2.courses then
      (true, { db2 with grades := db2.grades ++ seedGrades })
    else (false, db2)
  else (true, db2)

/-- One mutating menu action of `main` (`PSPSchool-StudentMS.cpp`). -/
inductive MenuAction where
  | addStudent (s : Student)
  | addCourse (c : Course)
  | enroll (roll code : String)
  | enterMarks (roll code : String) (im fm : ℚ)
  | updateStudent (s : Student)
  | updateCourse (c : Course)
  | deleteStudent (roll : String)
  | deleteCourse (code : String)
  | deleteEnrollment (roll code : String)
  deriving DecidableEq

/-- The durable-store call of each menu action (the left operand of the
`&&` in `main`). -/
def storeStep (db : Db) : MenuAction → Bool × Db
  | .addStudent s => db_add_student db s
  | .addCourse c => db_add_course db c
  | .enroll roll code => db_enroll db roll code
  | .enterMarks roll code im fm => db_enter_marks db roll code im fm
  | .updateStudent s => db_update_student db s
  | .updateCourse c => db_update_course db c
  | .deleteStudent roll => db_delete_student db roll
  | .deleteCourse code => db_delete_course db code
  | .deleteEnrollment roll code => db_delete_enrollment db roll code

/-- The in-memory mirror call of each menu action (the right operand of the
`&&` in `main`). -/
def mirrorStep (d : DataStore) : MenuAction → Bool × DataStore
  | .addStudent s => add_student d s
  | .addCourse c => add_course d c
  | .enroll roll code => enroll_student d roll code
  | .enterMarks roll code im fm => enter_marks d roll code im fm
  | .updateStudent s => apply_student_update d s
  | .updateCourse c => apply_course_update d c
  | .deleteStudent roll => remove_student d roll
  | .deleteCourse code => remove_course d code
  | .deleteEnrollment roll code => remove_enrollment d roll code

/-- The synchronization protocol of `main`: each mutating action is the C++
expression `db_op(...) && mirror_op(...)`, whose `&&` short-circuit runs the
store write first and skips the mirror write unless the store reported
success. Returns the store state, the mirror state, and the overall
success boolean. -/
def runAction (db : Db) (d : DataStore) (a : MenuAction) : Db × DataStore × Bool :=
  match storeStep db a with
  | (false, db') => (db', d, false)
  | (true, db') =>
    match mirrorStep d a with
    | (okm, d') => (db', d', okm)

/-- A one-student, one-course, one-enrollment mirror fixture (seed row
`S001` / `MTH101` with zero marks). -/
def dataFix : DataStore :=
  ⟨[⟨"S001", "Ava", "12 Oak St", "021-111"⟩],
   [⟨"MTH101", "Maths", "Numbers and algebra", "Mr. King"⟩],
   [⟨"S001", "MTH101", 0, 0⟩]⟩

/-- The durable-store counterpart of `dataFix`. -/
def dbFix : Db :=
  ⟨[⟨"S001", "Ava", "12 Oak St", "021-111"⟩],
   [⟨"MTH101", "Maths", "Numbers and algebra", "Mr. King"⟩],
   [⟨"S001", "MTH101", 0, 0⟩]⟩

/-- A mirror fixture whose single grade row has no matching student or
course (an orphan row, possible only for the raw helper, not under the
protocol). -/
def dataOrphan : DataStore := ⟨[], [], [⟨"S9", "C1", 0, 0⟩]⟩

/-- A mirror fixture with one student enrolled in two courses, with
weighted scores 60 and 90. -/
def dataTwo : DataStore :=
  ⟨[⟨"S001", "Ava", "12 Oak St", "021-111"⟩],
   [⟨"MTH101", "Maths", "Numbers and algebra", "Mr. King"⟩,
    ⟨"SCI101", "Science", "Intro science", "Ms. Ray"⟩],
   [⟨"S001", "MTH101", 60, 60⟩, ⟨"S001", "SCI101", 90, 90⟩]⟩

/-- A store state reachable by deleting the seed rows across runs: the
grades table is empty while the students and courses tables are non-empty
but hold none of the rows the grades seed references. -/
def dbNoSeedRefs : Db :=
  ⟨[⟨"S999", "Zoe", "1 Elm St", "021-444"⟩],
   [⟨"ABC123", "Art", "Drawing basics", "Ms. Fox"⟩],
   []⟩

/-- The durable-store component of the protocol result is always the result
of the store call, whether or not the mirror call runs. -/
lemma runAction_fst (db : Db) (d : DataStore) (a : MenuAction) :
    (runAction db d a).1 = (storeStep db a).2 := by
  unfold runAction
  rcases h : storeStep db a with ⟨ok, db'⟩
  cases ok
  · rfl
  · rcases hm : mirrorStep d a with ⟨okm, d'⟩
    rfl

/-- Claim C1: for every mutating menu action, the store call runs first and
the mirror call is gated on its success; whenever the store call returns
false, the mirror state after the action equals the mirror state before it
and the action reports failure. -/
theorem protocol_store_first_mirror_gated (db : Db) (d : DataStore) (a : MenuAction)
    (h : (storeStep db a).1 = false) :
    (runAction db d a).2.1 = d ∧ (runAction db d a).2.2 = false := by
  rcases hs : storeStep db a with ⟨ok, db'⟩
  have hok : ok = false := by rw [hs] at h; exact h
  subst hok
  unfold runAction
  rw [hs]
  exact ⟨rfl, rfl⟩

/-- Witness for C1 at a concrete failing store call: deleting student `S001`
from an empty store fails, and the non-empty mirror is untouched. -/
theorem protocol_store_first_mirror_gated_witness :
    (storeStep ⟨[], [], []⟩ (MenuAction.deleteStudent "S001")).1 = false ∧
    ((runAction ⟨[], [], []⟩ dataFix (MenuAction.deleteStudent "S001")).2.1 = dataFix ∧
     (runAction ⟨[], [], []⟩ dataFix (MenuAction.deleteStudent "S001")).2.2 = false) :=
  ⟨by decide,
   protocol_store_first_mirror_gated ⟨[], [], []⟩ dataFix (MenuAction.deleteStudent "S001")
     (by decide)⟩

/-- Claim C2, counterexample: on an empty mirror, `enroll_student` returns
false and appends nothing, contradicting the claim that it appends a grade
row and returns true regardless of whether the student and course exist. -/
theorem enroll_mirror_rechecks_cex :
    (enroll_student ⟨[], [], []⟩ "S001" "MTH101").1 = false ∧
    (enroll_student ⟨[], [], []⟩ "S001" "MTH101").2.all_grades = [] := by
  decide

/-- Claim C2, amended: `enroll_student` does re-check — it appends
`Grade{roll, code, 0, 0}` and returns true exactly when the student exists,
the course exists, and the pair is not already enrolled; otherwise it
returns false and leaves the mirror unchanged. -/
theorem enroll_student_spec (d : DataStore) (roll code : String) :
    enroll_student d roll code =
      if exists_student d roll && exists_course d code && !(already_enrolled d roll code) then
        (true, { d with all_grades := d.all_grades ++ [⟨roll, code, 0, 0⟩] })
      else (false, d) := by
  unfold enroll_student exists_student exists_course already_enrolled
  cases h1 : d.all_students.any (fun x => x.roll_no == roll) <;>
    cases h2 : d.all_courses.any (fun x => x.code == code) <;>
      cases h3 : d.all_grades.any (fun g => g.roll_no == roll && g.course_code == code) <;>
        simp [h1, h2, h3]

/-- A row is found (and overwritten) by `update_first_grade` exactly when
some row matches the composite key. -/
lemma update_first_grade_isSome (gs : List Grade) (roll code : String) (im fm : ℚ) :
    (update_first_grade gs roll code im fm).isSome =
      gs.any (fun g => g.roll_no == roll && g.course_code == code) := by
  induction gs with
  | nil => rfl
  | cons g gs ih =>
    unfold update_first_grade
    by_cases h : (g.roll_no == roll && g.course_code == code) = true
    · simp [h]
    · rw [if_neg h]
      cases hu : update_first_grade gs roll code im fm <;>
        rw [hu] at ih <;> simp_all

/-- Claim C3, counterexample: with the enrollment `(S001, MTH101)` present,
`enter_marks` with internal mark 150 returns false and changes nothing —
range validation does happen inside the call, so presence of the matching
enrollment does not alone determine the returned boolean. -/
theorem enter_marks_range_check_cex :
    already_enrolled dataFix "S001" "MTH101" = true ∧
    enter_marks dataFix "S001" "MTH101" 150 50 = (false, dataFix) := by
  decide

/-- Claim C3, amended: `enter_marks` first validates both marks against
[0, 100], returning false on any violation regardless of presence; for
in-range marks the presence of the matching enrollment alone determines the
returned boolean. -/
theorem enter_marks_result_spec (d : DataStore) (roll code : String) (im fm : ℚ) :
    (enter_marks d roll code im fm).1 =
      (!decide (im < 0 ∨ 100 < im ∨ fm < 0 ∨ 100 < fm) && already_enrolled d roll code) := by
  unfold enter_marks
  by_cases h : im < 0 ∨ 100 < im ∨ fm < 0 ∨ 100 < fm
  · simp [h]
  · rw [if_neg h]
    have hs := update_first_grade_isSome d.all_grades roll code im fm
    cases hu : update_first_grade d.all_grades roll code im fm <;>
      rw [hu] at hs <;> simp_all [already_enrolled]

/-- Claim C7, counterexample: for internal 75 and final 88 the weighted
score is 841/10 = 84.1, not 82.1; the difference is 2, far beyond the 1e-9
tolerance. -/
theorem weighted_75_88_cex :
    Grade.weighted ⟨"S001", "MTH101", 75, 88⟩ = 841/10 ∧
    ¬(|Grade.weighted ⟨"S001", "MTH101", 75, 88⟩ - 821/10| ≤ 1/1000000000) := by
  constructor
  · norm_num [Grade.weighted]
  · norm_num [Grade.weighted]

/-- Claim C7, amended: `weighted()` equals `0.3*i + 0.7*f` exactly for every
pair of marks (hence within the 1e-9 tolerance); in particular for i = 75
and f = 88 the weighted score is 84.1. -/
theorem weighted_linear_spec :
    (∀ (r c : String) (i f : ℚ),
       Grade.weighted ⟨r, c, i, f⟩ = 3/10 * i + 7/10 * f ∧
       |Grade.weighted ⟨r, c, i, f⟩ - (3/10 * i + 7/10 * f)| ≤ 1/1000000000) ∧
    Grade.weighted ⟨"S001", "MTH101", 75, 88⟩ = 841/10 := by
  refine ⟨fun r c i f => ⟨rfl, ?_⟩, by norm_num [Grade.weighted]⟩
  have h : Grade.weighted ⟨r, c, i, f⟩ = 3/10 * i + 7/10 * f := rfl
  rw [h, sub_self, abs_zero]
  norm_num

/-- Claim C6: adding a student or course whose identifier is already present
fails and leaves the state unchanged, in the mirror and in the store. -/
theorem duplicate_add_fails (d : DataStore) (db : Db) (s : Student) (c : Course)
    (hs : exists_student d s.roll_no = true)
    (hc : exists_course d c.code = true)
    (hds : db.students.any (fun x => x.roll_no == s.roll_no) = true)
    (hdc : db.courses.any (fun x => x.code == c.code) = true) :
    add_student d s = (false, d) ∧ add_course d c = (false, d) ∧
    db_add_student db s = (false, db) ∧ db_add_course db c = (false, db) := by
  unfold exists_student at hs
  unfold exists_course at hc
  unfold add_student add_course db_add_student db_add_course
  simp [hs, hc, hds, hdc]

/-- Witness for C6: re-adding roll `S001` and code `MTH101` (with different
non-key fields) fails against the fixture mirror and store. -/
theorem duplicate_add_fails_witness :
    exists_student dataFix "S001" = true ∧
    exists_course dataFix "MTH101" = true ∧
    dbFix.students.any (fun x => x.roll_no == "S001") = true ∧
    dbFix.courses.any (fun x => x.code == "MTH101") = true ∧
    (add_student dataFix ⟨"S001", "Zed", "9 New Rd", "021-999"⟩ = (false, dataFix) ∧
     add_course dataFix ⟨"MTH101", "Mathematics", "All of it", "Dr. Strange"⟩ = (false, dataFix) ∧
     db_add_student dbFix ⟨"S001", "Zed", "9 New Rd", "021-999"⟩ = (false, dbFix) ∧
     db_add_course dbFix ⟨"MTH101", "Mathematics", "All of it", "Dr. Strange"⟩ = (false, dbFix)) :=
  ⟨by decide, by decide, by decide, by decide,
   duplicate_add_fails dataFix dbFix ⟨"S001", "Zed", "9 New Rd", "021-999"⟩
     ⟨"MTH101", "Mathematics", "All of it", "Dr. Strange"⟩
     (by decide) (by decide) (by decide) (by decide)⟩

/-- Claim C5: in both the mirror and the durable store, deleting a student
removes exactly the student rows with that roll and the grade rows with that
roll (courses untouched), and deleting a course removes exactly the course
rows with that code and the grade rows with that code (students untouched). -/
theorem cascade_delete_exact (d : DataStore) (db : Db) (roll code : String) :
    ((∀ s : Student, s ∈ (remove_student d roll).2.all_students ↔
        s ∈ d.all_students ∧ s.roll_no ≠ roll)
     ∧ (∀ g : Grade, g ∈ (remove_student d roll).2.all_grades ↔
        g ∈ d.all_grades ∧ g.roll_no ≠ roll)
     ∧ (remove_student d roll).2.all_courses = d.all_courses)
    ∧ ((∀ c : Course, c ∈ (remove_course d code).2.all_courses ↔
        c ∈ d.all_courses ∧ c.code ≠ code)
       ∧ (∀ g : Grade, g ∈ (remove_course d code).2.all_grades ↔
          g ∈ d.all_grades ∧ g.course_code ≠ code)
       ∧ (remove_course d code).2.all_students = d.all_students)
    ∧ ((∀ s : Student, s ∈ (db_delete_student db roll).2.students ↔
        s ∈ db.students ∧ s.roll_no ≠ roll)
       ∧ (∀ g : Grade, g ∈ (db_delete_student db roll).2.grades ↔
          g ∈ db.grades ∧ g.roll_no ≠ roll)
       ∧ (db_delete_student db roll).2.courses = db.courses)
    ∧ ((∀ c : Course, c ∈ (db_delete_course db code).2.courses ↔
        c ∈ db.courses ∧ c.code ≠ code)
       ∧ (∀ g : Grade, g ∈ (db_delete_course db code).2.grades ↔
          g ∈ db.grades ∧ g.course_code ≠ code)
       ∧ (db_delete_course db code).2.students = db.students) := by
  refine ⟨⟨?_, ?_, rfl⟩, ⟨?_, ?_, rfl⟩, ⟨?_, ?_, rfl⟩, ⟨?_, ?_, rfl⟩⟩ <;> intro x <;>
    simp [remove_student, remove_course, db_delete_student, db_delete_course, List.mem_filter]

/-- Claim C10: when no student matches the roll, `remove_student` returns
false but still erases every grade row with that roll; symmetrically for
`remove_course` with an absent code — the returned boolean reflects only the
parent entity's presence. -/
theorem remove_missing_parent_still_erases (d : DataStore) (roll code : String)
    (hs : exists_student d roll = false) (hc : exists_course d code = false) :
    (remove_student d roll).1 = false ∧
    (remove_student d roll).2.all_grades =
      d.all_grades.filter (fun g => !(g.roll_no == roll)) ∧
    (remove_course d code).1 = false ∧
    (remove_course d code).2.all_grades =
      d.all_grades.filter (fun g => !(g.course_code == code)) := by
  have hs' : ∀ x ∈ d.all_students, ¬x.roll_no = roll := by
    simpa [exists_student] using hs
  have hc' : ∀ x ∈ d.all_courses, ¬x.code = code := by
    simpa [exists_course] using hc
  have hstu : d.all_students.filter (fun s => !(s.roll_no == roll)) = d.all_students := by
    apply List.filter_eq_self.mpr
    intro a ha
    simpa using hs' a ha
  have hcou : d.all_courses.filter (fun c => !(c.code == code)) = d.all_courses := by
    apply List.filter_eq_self.mpr
    intro a ha
    simpa using hc' a ha
  refine ⟨?_, rfl, ?_, rfl⟩
  · simp [remove_student, hstu]
  · simp [remove_course, hcou]

/-- Witness for C10: on the orphan fixture (one grade row, no students, no
courses), both removals return false yet erase the grade row. -/
theorem remove_missing_parent_still_erases_witness :
    exists_student dataOrphan "S9" = false ∧
    exists_course dataOrphan "C1" = false ∧
    ((remove_student dataOrphan "S9").1 = false ∧
     (remove_student dataOrphan "S9").2.all_grades =
       dataOrphan.all_grades.filter (fun g => !(g.roll_no == "S9")) ∧
     (remove_course dataOrphan "C1").1 = false ∧
     (remove_course dataOrphan "C1").2.all_grades =
       dataOrphan.all_grades.filter (fun g => !(g.course_code == "C1"))) ∧
    (remove_student dataOrphan "S9").2.all_grades = [] ∧
    (remove_course dataOrphan "C1").2.all_grades = [] :=
  ⟨by decide, by decide,
   remove_missing_parent_still_erases dataOrphan "S9" "C1" (by decide) (by decide),
   by decide, by decide⟩

/-- Claim C8, counterexample: on a reachable store whose grades table is
empty while the students and courses tables are non-empty but hold none of
the rows the grades seed references, the grades seed `INSERT` violates its
`FOREIGN KEY` constraints, so `db_init_and_seed` returns false and leaves
the store unchanged — the empty grades table is not seeded even though the
call ran, refuting the claim that an empty table is always seeded
independently of the other tables' contents. -/
theorem init_and_seed_fk_fail_cex :
    dbNoSeedRefs.grades = [] ∧
    dbNoSeedRefs.students ≠ [] ∧
    dbNoSeedRefs.courses ≠ [] ∧
    db_init_and_seed dbNoSeedRefs = (false, dbNoSeedRefs) := by
  decide

/-- Rerunning `db_init_and_seed` on the store it produced returns the same
result: after a success every table is non-empty so nothing is reattempted,
and after a grades-seed failure the same foreign-key check fails again
without touching the store. -/
lemma db_init_and_seed_idem (db : Db) :
    db_init_and_seed (db_init_and_seed db).2 = db_init_and_seed db := by
  rcases db with ⟨ss, cs, gs⟩
  unfold db_init_and_seed
  cases ss <;> cases cs <;> cases gs <;>
    simp [seedStudents, seedCourses, seedGrades] <;>
      (try split) <;> simp_all

/-- Claim C8, amended: rerunning `db_init_and_seed` on the store it produced
changes nothing (in particular, a second run after a successful one leaves
the store unchanged and succeeds again); the students and courses tables are
each seeded exactly when that table itself is empty, independently of every
other table; the grades seed is inserted only into an empty grades table and
only when its foreign-key references exist in the (possibly just-seeded)
students and courses tables, the call otherwise returning failure with the
grades table unchanged; the fixed seed set has 3 students, 3 courses and 4
enrollments. -/
theorem init_and_seed_fk_spec (db : Db) :
    db_init_and_seed (db_init_and_seed db).2 = db_init_and_seed db ∧
    (db_init_and_seed db).2.students = (if db.students.isEmpty then seedStudents else db.students) ∧
    (db_init_and_seed db).2.courses = (if db.courses.isEmpty then seedCourses else db.courses) ∧
    (db_init_and_seed db).2.grades =
      (if db.grades.isEmpty
          && seed_grades_fk_ok (db_init_and_seed db).2.students (db_init_and_seed db).2.courses
       then seedGrades else db.grades) ∧
    (db_init_and_seed db).1 =
      (!db.grades.isEmpty
        || seed_grades_fk_ok (db_init_and_seed db).2.students (db_init_and_seed db).2.courses) ∧
    seedStudents.length = 3 ∧ seedCourses.length = 3 ∧ seedGrades.length = 4 := by
  refine ⟨db_init_and_seed_idem db, ?_, ?_, ?_, ?_, rfl, rfl, rfl⟩ <;>
    (rcases db with ⟨ss, cs, gs⟩
     unfold db_init_and_seed
     cases ss <;> cases cs <;> cases gs <;>
       simp [seedStudents, seedCourses, seedGrades] <;>
         (try split) <;> simp_all)

/-- Claim C4, counterexample: the store-then-mirror mark update with
internal mark 150 on the fixture leaves the durable store holding an
enrollment with a mark outside [0, 100] — `db_enter_marks` performs no
range check (the store call succeeds; the mirror call then rejects the
range, so the overall action reports failure while the store row stays
out of range). -/
theorem mark_update_out_of_range_persists_cex :
    (storeStep dbFix (MenuAction.enterMarks "S001" "MTH101" 150 50)).1 = true ∧
    ((runAction dbFix dataFix (MenuAction.enterMarks "S001" "MTH101" 150 50)).1).grades =
      [⟨"S001", "MTH101", 150, 50⟩] ∧
    ¬((150 : ℚ) ≤ 100) ∧
    (runAction dbFix dataFix (MenuAction.enterMarks "S001" "MTH101" 150 50)).2.2 = false := by
  decide

/-- Claim C4, amended: provided every enrollment in the store has marks in
[0, 100] beforehand and the input marks are themselves in [0, 100] (as the
UI's number prompt guarantees), the store-then-mirror mark update leaves no
enrollment in the durable store with a mark outside [0, 100]. -/
theorem mark_update_preserves_bounds (db : Db) (d : DataStore) (roll code : String) (im fm : ℚ)
    (hdb : ∀ g ∈ db.grades,
      0 ≤ g.internal_mark ∧ g.internal_mark ≤ 100 ∧ 0 ≤ g.final_mark ∧ g.final_mark ≤ 100)
    (him0 : 0 ≤ im) (him1 : im ≤ 100) (hfm0 : 0 ≤ fm) (hfm1 : fm ≤ 100) :
    ∀ g ∈ ((runAction db d (MenuAction.enterMarks roll code im fm)).1).grades,
      0 ≤ g.internal_mark ∧ g.internal_mark ≤ 100 ∧ 0 ≤ g.final_mark ∧ g.final_mark ≤ 100 := by
  rw [runAction_fst]
  intro g hg
  have hg' : g ∈ (db_enter_marks db roll code im fm).2.grades := hg
  simp only [db_enter_marks] at hg'
  rcases List.mem_map.mp hg' with ⟨g0, hg0, rfl⟩
  by_cases h : (g0.roll_no == roll && g0.course_code == code) = true
  · simp only [h, if_pos]
    exact ⟨him0, him1, hfm0, hfm1⟩
  · simp only [h, if_neg, Bool.false_eq_true, not_false_eq_true]
    exact hdb g0 hg0

/-- Witness for C4 at the fixture with in-range marks 75 and 88: every
hypothesis holds and every store row stays within bounds. -/
theorem mark_update_preserves_bounds_witness :
    (∀ g ∈ dbFix.grades,
      0 ≤ g.internal_mark ∧ g.internal_mark ≤ 100 ∧ 0 ≤ g.final_mark ∧ g.final_mark ≤ 100) ∧
    (0 : ℚ) ≤ 75 ∧ (75 : ℚ) ≤ 100 ∧ (0 : ℚ) ≤ 88 ∧ (88 : ℚ) ≤ 100 ∧
    ∀ g ∈ ((runAction dbFix dataFix (MenuAction.enterMarks "S001" "MTH101" 75 88)).1).grades,
      0 ≤ g.internal_mark ∧ g.internal_mark ≤ 100 ∧ 0 ≤ g.final_mark ∧ g.final_mark ≤ 100 :=
  ⟨by decide, by decide, by decide, by decide, by decide,
   mark_update_preserves_bounds dbFix dataFix "S001" "MTH101" 75 88
     (by decide) (by decide) (by decide) (by decide) (by decide)⟩

/-- The single accumulating pass of `student_report` over the grade list
computes, over the rows matching the roll: the sum of weighted scores, the
row count, and the count of rows with weighted score at least 50. -/
lemma report_foldl_general (gs : List Grade) (roll : String) (t : ℚ) (n p : Nat) :
    gs.foldl
      (fun acc g =>
        if g.roll_no == roll then
          (acc.1 + g.weighted, acc.2.1 + 1, acc.2.2 + (if (50 : ℚ) ≤ g.weighted then 1 else 0))
        else acc) (t, n, p) =
      (t + ((gs.filter (fun g => g.roll_no == roll)).map Grade.weighted).sum,
       n + (gs.filter (fun g => g.roll_no == roll)).length,
       p + ((gs.filter (fun g => g.roll_no == roll)).filter
              (fun g => decide ((50 : ℚ) ≤ g.weighted))).length) := by
  induction gs generalizing t n p with
  | nil => simp
  | cons g gs ih =>
    rw [List.foldl_cons]
    by_cases h : (g.roll_no == roll) = true
    · rw [if_pos h, ih]
      by_cases h50 : (50 : ℚ) ≤ g.weighted <;>
        simp [List.filter_cons, h, h50, Prod.ext_iff] <;>
          (try refine ⟨?_, ?_, ?_⟩) <;> (try refine ⟨?_, ?_⟩) <;> first | ring | omega
    · rw [if_neg h, ih]
      simp [List.filter_cons, h]

/-- Claim C9: for an existing student, `student_report` aggregates exactly
the grade rows whose roll matches — their weighted-score sum (whose quotient
by the count is the printed average), their count, and the count of those
with weighted score at least the fixed threshold 50 — and, being a pure
function of the mirror, mutates no state. -/
theorem student_report_aggregates (d : DataStore) (roll : String)
    (h : exists_student d roll = true) :
    student_report d roll =
      some (((d.all_grades.filter (fun g => g.roll_no == roll)).map Grade.weighted).sum,
            (d.all_grades.filter (fun g => g.roll_no == roll)).length,
            ((d.all_grades.filter (fun g => g.roll_no == roll)).filter
               (fun g => decide ((50 : ℚ) ≤ g.weighted))).length) := by
  unfold exists_student at h
  unfold student_report report_agg
  rw [if_pos h, report_foldl_general]
  simp

/-- Witness for C9: the student with two enrollments of weighted scores 60
and 90 reports total 150 over 2 courses with 2 passing, so the printed
average 150 / 2 is 75. -/
theorem student_report_aggregates_witness :
    exists_student dataTwo "S001" = true ∧
    student_report dataTwo "S001" = some (150, 2, 2) ∧
    (150 : ℚ) / 2 = 75 := by
  refine ⟨by decide, ?_, by norm_num⟩
  rw [student_report_aggregates dataTwo "S001" (by decide)]
  norm_num [dataTwo, Grade.weighted, List.filter_cons, List.filter_nil]
